import Mathlib

/-!
Shallow embedding of the property_recommender_chat_bot repository's core
data pipeline and query logic:
  * backend/scripts/processdata.js  — DataProcessor: CSV merge, field
    extractors, validity filter;
  * backend/server.js               — applyFilters (Query Filter Engine);
  * backend/services/geminiService.js — extractFilters gate and
    enhancedFilterExtraction (fallback parser).
JavaScript numbers are modelled as ℚ (all the arithmetic the code performs
on them is exact decimal arithmetic), strings as Lean `String`/`List Char`,
absent object fields as `Option`, and JS regular expressions by an explicit
backtracking matcher over an embedded pattern AST (`Re`).
-/

namespace PropertyBot

/-! ## String helpers (JS `toLowerCase`, `includes`, `trim`, `split`) -/

/-- JS `String.prototype.toLowerCase` on the character list. -/
def lowerL (s : List Char) : List Char := s.map Char.toLower

/-- JS `String.prototype.toLowerCase`. -/
def lowerStr (s : String) : String := ⟨lowerL s.data⟩

/-- JS `haystack.includes(needle)`: substring containment. -/
def containsSub (needle : List Char) : List Char → Bool
  | [] => needle.isEmpty
  | c :: t => needle.isPrefixOf (c :: t) || containsSub needle t

/-- `includes` on `String`s. -/
def strContains (hay needle : String) : Bool := containsSub needle.data hay.data

/-! ## A small backtracking regular-expression engine

The source uses JS regexes; each one used by the claims is embedded as a
`Re` value and run with JS semantics: leftmost match, greedy `*`/`+`/`?`
with backtracking, ordered alternation, zero-width lookahead, `\b`, `^`, `$`.
-/

inductive Re where
  | eps : Re
  | cls (p : Char → Bool) : Re
  | seq (a b : Re) : Re
  | alt (a b : Re) : Re
  | star (a : Re) : Re
  | opt (a : Re) : Re
  | group (n : Nat) (a : Re) : Re
  | look (a : Re) : Re
  | wordB : Re
  | bos : Re
  | eos : Re

namespace Re

def size : Re → Nat
  | eps => 1
  | cls _ => 1
  | seq a b => size a + size b + 1
  | alt a b => size a + size b + 1
  | star a => size a + 1
  | opt a => size a + 1
  | group _ a => size a + 1
  | look a => size a + 1
  | wordB => 1
  | bos => 1
  | eos => 1

/-- One character, exact. -/
def chr (c : Char) : Re := cls (fun ch => ch == c)

/-- One character, case-insensitive (the `/i` flag). -/
def chri (c : Char) : Re := cls (fun ch => ch.toLower == c.toLower)

/-- A literal word, exact. -/
def word (w : String) : Re := w.data.foldr (fun c r => seq (chr c) r) eps

/-- A literal word under `/i`. -/
def wordi (w : String) : Re := w.data.foldr (fun c r => seq (chri c) r) eps

/-- Ordered alternation of a list of patterns (first alternative wins). -/
def alts : List Re → Re
  | [] => cls (fun _ => false)
  | [a] => a
  | a :: rest => alt a (alts rest)

/-- `+`: one or more, greedy. -/
def plus (a : Re) : Re := seq a (star a)

/-- Exactly `n` copies. -/
def rep (a : Re) : Nat → Re
  | 0 => eps
  | n + 1 => seq a (rep a n)

/-- Up to `n` more copies, greedy (each `?` prefers matching). -/
def optChain (a : Re) : Nat → Re
  | 0 => eps
  | n + 1 => opt (seq a (optChain a n))

/-- Bounded repetition `{lo,hi}`, greedy. -/
def repRange (a : Re) (lo hi : Nat) : Re := seq (rep a lo) (optChain a (hi - lo))

end Re

/-- JS `\w`. -/
def isWordChar (c : Char) : Bool := c.isAlphanum || c == '_'

/-- JS `\s` (ASCII whitespace suffices for the data the code handles). -/
def isSpaceChar (c : Char) : Bool := c == ' ' || c == '\t' || c == '\n' || c == '\r'

/-- Completed capture groups: (group index, start, stop), latest first. -/
abbrev Caps := List (Nat × Nat × Nat)

/-- Whether the character at position `i` of `s` is a word character
(positions outside the string are not). -/
def wordAt (s : List Char) (i : Nat) : Bool :=
  match s.drop i with
  | [] => false
  | c :: _ => isWordChar c

/-- The backtracking matcher, in continuation-passing style.  `fuel` bounds
the depth of the search; callers pass a fuel large enough for the pattern
and subject at hand (`reFuel`). -/
def reRun (s : List Char) :
    Nat → Re → Nat → Caps → (Nat → Caps → Option (Nat × Caps)) → Option (Nat × Caps)
  | 0, _, _, _, _ => none
  | _ + 1, .eps, i, cs, k => k i cs
  | _ + 1, .cls p, i, cs, k =>
      match s.drop i with
      | [] => none
      | c :: _ => if p c then k (i + 1) cs else none
  | f + 1, .seq a b, i, cs, k =>
      reRun s f a i cs (fun j cs' => reRun s f b j cs' k)
  | f + 1, .alt a b, i, cs, k =>
      match reRun s f a i cs k with
      | some r => some r
      | none => reRun s f b i cs k
  | f + 1, .star a, i, cs, k =>
      match reRun s f a i cs
          (fun j cs' => if i < j then reRun s f (.star a) j cs' k else k j cs') with
      | some r => some r
      | none => k i cs
  | f + 1, .opt a, i, cs, k =>
      match reRun s f a i cs k with
      | some r => some r
      | none => k i cs
  | f + 1, .group n a, i, cs, k =>
      reRun s f a i cs (fun j cs' => k j ((n, i, j) :: cs'))
  | f + 1, .look a, i, cs, k =>
      match reRun s f a i cs (fun j cs' => some (j, cs')) with
      | some _ => k i cs
      | none => none
  | _ + 1, .wordB, i, cs, k =>
      let prev := if i = 0 then false else wordAt s (i - 1)
      if prev != wordAt s i then k i cs else none
  | _ + 1, .bos, i, cs, k => if i = 0 then k i cs else none
  | _ + 1, .eos, i, cs, k => if i = s.length then k i cs else none

/-- Fuel that bounds the search depth of `reRun` for pattern `r` on `s`:
every recursion step either descends into the pattern structure or advances
the position (the `star` case requires progress). -/
def reFuel (r : Re) (s : List Char) : Nat := (r.size + 2) * (s.length + 2)

/-- One match attempt anchored at position `i`; `some (stop, caps)` on success. -/
def reMatchAt (r : Re) (s : List Char) (i : Nat) : Option (Nat × Caps) :=
  reRun s (reFuel r s) r i [] (fun j cs => some (j, cs))

/-- JS leftmost-match search: `some (start, stop, caps)` for the first
position at which the pattern matches. -/
def reFind (r : Re) (s : List Char) : Option (Nat × Nat × Caps) :=
  (List.range (s.length + 1)).findSome? fun i =>
    (reMatchAt r s i).map fun jc => (i, jc.1, jc.2)

/-- The slice of `s` from `i` (inclusive) to `j` (exclusive). -/
def slice (s : List Char) (i j : Nat) : List Char := (s.drop i).take (j - i)

/-- `match[0]` of the leftmost match: the whole matched text. -/
def reMatch0 (r : Re) (s : List Char) : Option (List Char) :=
  (reFind r s).map fun m => slice s m.1 m.2.1

/-- `match[n]` of the leftmost match: the text of capture group `n`. -/
def reGroup (r : Re) (s : List Char) (n : Nat) : Option (List Char) :=
  (reFind r s).bind fun m =>
    (m.2.2.find? (fun c => c.1 == n)).map fun c => slice s c.2.1 c.2.2

/-- JS `regex.test(str)`. -/
def reTest (r : Re) (s : List Char) : Bool := (reFind r s).isSome

/-! ## Field extractors (processdata.js)

Raw CSV cell values are `String`s; a missing/undefined cell is the empty
string (both are falsy in JS, and the code only tests them for truthiness).
-/

/-- `extractBHKGeneric`: first match of `/(\d+)\s*BHK/i`, as an integer;
`null` when absent or the argument is falsy. -/
def extractBHKGeneric (configuration : String) : Option Nat :=
  if configuration = "" then none
  else
    (reGroup
        (.seq (.group 1 (Re.plus (.cls Char.isDigit)))
          (.seq (.star (.cls isSpaceChar)) (Re.wordi "BHK")))
        configuration.data 1).map
      (fun ds => ds.foldl (fun acc c => acc * 10 + (c.toNat - '0'.toNat)) 0)

/-- The strip `/[^\d.]/g` applied by the price and area parsers. -/
def stripNonNumeric (s : String) : List Char :=
  s.data.filter (fun c => c.isDigit || c == '.')

/-- JS `parseFloat` restricted to strings of digits and dots (which is all
the stripped strings can contain): an optional integer part, an optional
`.`-led fraction part, `NaN` (here `none`) when neither holds a digit;
anything after the parsed prefix is ignored. -/
def parseFloatQ (l : List Char) : Option ℚ :=
  let intPart := l.takeWhile Char.isDigit
  let rest := l.dropWhile Char.isDigit
  let digitsVal : List Char → Nat :=
    fun ds => ds.foldl (fun acc c => acc * 10 + (c.toNat - '0'.toNat)) 0
  match rest with
  | '.' :: rest2 =>
      let fracPart := rest2.takeWhile Char.isDigit
      if intPart = [] && fracPart = [] then none
      else
        some ((digitsVal intPart : ℚ) +
          (digitsVal fracPart : ℚ) / ((10 ^ fracPart.length : Nat) : ℚ))
  | _ => if intPart = [] then none else some (digitsVal intPart)

/-- JS `price % 10 === 0` on a (non-negative) number: the value is an
integer multiple of 10. -/
def isMultipleOf10 (q : ℚ) : Bool := q.den == 1 && q.num % 10 == 0

/-- `parsePriceGeneric`: strip non-digit/non-dot characters, `parseFloat`,
then the unit heuristic of processdata.js lines 198-235. -/
def parsePriceGeneric (priceStr : String) : Option ℚ :=
  if priceStr = "" then none
  else
    match parseFloatQ (stripNonNumeric priceStr) with
    | none => none
    | some price =>
        if price ≤ 0 then none
        else if price < 100 then none
        else if price < 1000 then some (price * 100000)
        else if price < 100000 then
          if price ≤ 200 ∧ isMultipleOf10 price then some (price * 100000)
          else some price
        else if price > 500000000 then none
        else some price

/-- `parseAreaGeneric`: strip, `parseFloat`, then the [300, 5000] range gate. -/
def parseAreaGeneric (areaStr : String) : Option ℚ :=
  if areaStr = "" then none
  else
    match parseFloatQ (stripNonNumeric areaStr) with
    | none => none
    | some area =>
        if area ≤ 0 then none
        else if area < 300 then none
        else if area > 5000 then none
        else some area

/-- `parsePossessionGeneric`: substring checks on the lowercased status. -/
def parsePossessionGeneric (status : String) : String :=
  if status = "" then "Unknown"
  else
    let statusStr := lowerStr status
    if strContains statusStr "ready" then "Ready to Move"
    else if strContains statusStr "under" then "Under Construction"
    else if strContains statusStr "new" then "New Launch"
    else "Unknown"

/-! ### Location extraction -/

/-- The ten city patterns of `extractLocationGeneric` (tested against the
already-lowercased search text, hence case-sensitive lowercase literals). -/
def cityPatterns : List (Re × String) :=
  let pat : List String → Re := fun ws =>
    .seq .wordB (.seq (.group 1 (Re.alts (ws.map Re.word))) .wordB)
  [ (pat ["mumbai", "bombay"], "Mumbai"),
    (pat ["pune", "poona"], "Pune"),
    (pat ["bangalore", "bengaluru"], "Bangalore"),
    (pat ["delhi", "new delhi"], "Delhi"),
    (pat ["hyderabad", "secunderabad"], "Hyderabad"),
    (pat ["chennai", "madras"], "Chennai"),
    (pat ["kolkata", "calcutta"], "Kolkata"),
    (pat ["ahmedabad", "ahmadabad"], "Ahmedabad"),
    (pat ["surat"], "Surat"),
    (pat ["jaipur"], "Jaipur") ]

/-- `[a-z\s]` under `/i`. -/
def azOrSpace (c : Char) : Bool :=
  ('a' ≤ c.toLower && c.toLower ≤ 'z') || isSpaceChar c

/-- `[a-z0-9]` under `/i`. -/
def alnumLow (c : Char) : Bool := ('a' ≤ c.toLower && c.toLower ≤ 'z') || c.isDigit

/-- The location-indicator keywords shared by locality pattern 1 and the
clean-up replace (alternation order as written in the source). -/
def localityKeywords : List String :=
  ["near", "beside", "opposite to", "at", "in", "area", "locality", "sector"]

/-- `(?=,|\.|$)` -/
def lookCommaDotEnd : Re := .look (Re.alts [Re.chr ',', Re.chr '.', .eos])

/-- The five locality patterns of `extractLocationGeneric`, in order. -/
def localityPatterns : List Re :=
  let ws := Re.cls isSpaceChar
  [ -- 1: /(?:near|beside|opposite to|at|in|area|locality|sector)\s+([a-z\s]{3,30})(?=,|\.|$)/i
    .seq (Re.alts (localityKeywords.map Re.wordi))
      (.seq (Re.plus ws)
        (.seq (.group 1 (Re.repRange (.cls azOrSpace) 3 30)) lookCommaDotEnd)),
    -- 2: /([a-z\s]+)(?:\s+(nagar|colony|society|vihar|enclave|estate|park|gardens|road|street|lane))(?=,|\.|$)/i
    .seq (.group 1 (Re.plus (.cls azOrSpace)))
      (.seq (Re.plus ws)
        (.seq
          (.group 2 (Re.alts
            (["nagar", "colony", "society", "vihar", "enclave", "estate", "park",
              "gardens", "road", "street", "lane"].map Re.wordi)))
          lookCommaDotEnd)),
    -- 3: /^([^,]{5,50})(?=,?\s*(?:mumbai|pune|bangalore|delhi|hyderabad|chennai|kolkata))/i
    .seq .bos
      (.seq (.group 1 (Re.repRange (.cls (fun c => c != ',')) 5 50))
        (.look (.seq (.opt (Re.chr ','))
          (.seq (.star ws)
            (Re.alts
              (["mumbai", "pune", "bangalore", "delhi", "hyderabad", "chennai",
                "kolkata"].map Re.wordi)))))),
    -- 4: /\b([A-Z][a-z]+(?:\s+[A-Z][a-z]+)*)(?=,|\s+(?:mumbai|pune|bangalore|delhi|hyderabad))/  (case-sensitive)
    (let upper := Re.cls (fun c => 'A' ≤ c && c ≤ 'Z')
     let lower := Re.cls (fun c => 'a' ≤ c && c ≤ 'z')
     let capWord := .seq upper (Re.plus lower)
     .seq .wordB
       (.seq (.group 1 (.seq capWord (.star (.seq (Re.plus ws) capWord))))
         (.look (.alt (Re.chr ',')
           (.seq (Re.plus ws)
             (Re.alts
               (["mumbai", "pune", "bangalore", "delhi", "hyderabad"].map Re.word))))))),
    -- 5: /(?:survey no\.|plot no\.|sector no\.)\s*[a-z0-9]+\s*,\s*([^,]+)/i
    .seq (Re.alts (["survey no.", "plot no.", "sector no."].map Re.wordi))
      (.seq (.star ws)
        (.seq (Re.plus (.cls alnumLow))
          (.seq (.star ws)
            (.seq (Re.chr ',')
              (.seq (.star ws) (.group 1 (Re.plus (.cls (fun c => c != ','))))))))) ]

/-- `looksLikeCity`: `/\b(mumbai|pune|...)\b/i` tested on the lowercased text. -/
def looksLikeCity (text : String) : Bool :=
  reTest
    (.seq .wordB
      (.seq
        (.group 1 (Re.alts
          (["mumbai", "pune", "bangalore", "delhi", "hyderabad", "chennai",
            "kolkata", "ahmedabad", "surat", "jaipur"].map Re.wordi)))
        .wordB))
    (lowerStr text).data

/-- The stop-word list of `isValidLocality` (verbatim, including the
multi-word entries that can never equal a single token). -/
def invalidLocalityWords : List String :=
  ["survey", "plot", "sector", "number", "no", "road", "street", "lane",
   "avenue", "marg", "near", "beside", "opposite", "at", "in", "area",
   "locality", "and", "the", "a", "an", "to", "of", "for", "beside godrej",
   "opposite to mca", "stadium", "school", "college", "hospital", "mamurdi",
   "thite", "nagar", "sai"]

/-- JS `str.split(/\s+/)`: a run of whitespace is one separator. -/
def splitWs (s : String) : List String :=
  let rec go (cur : List Char) : List Char → List String
    | [] => [⟨cur.reverse⟩]
    | c :: t =>
        if isSpaceChar c then
          (⟨cur.reverse⟩ : String) :: go [] (t.dropWhile isSpaceChar)
        else go (c :: cur) t
    termination_by l => l.length
    decreasing_by
      · exact Nat.lt_succ_of_le (List.dropWhile_sublist _).length_le
      · exact Nat.lt_succ_self _
  go [] s.data

/-- `isValidLocality` (its `city` argument is accepted but never read). -/
def isValidLocality (locality : String) (city : Option String) : Bool :=
  let _ := city
  if locality = "" || locality.length < 3 then false
  else
    let localityLower := lowerStr locality
    let words := splitWs localityLower
    let hasValidWords :=
      words.any (fun word => word.length > 2 && !(invalidLocalityWords.contains word))
    if !hasValidWords then false
    else if looksLikeCity localityLower then false
    else if !(locality.data.any Char.isAlpha) then false
    else true

/-- `capitalizeWords`: JS `str.replace(/\w\S*/g, capitalize-first)`. A token
starts at a word character and extends over following non-space characters;
its first character is upper-cased, the rest lower-cased. -/
def capitalizeWords (s : String) : String :=
  let rec go : List Char → List Char
    | [] => []
    | c :: t =>
        if isWordChar c then
          let tok := t.takeWhile (fun d => !isSpaceChar d)
          c.toUpper :: (lowerL tok ++ go (t.dropWhile (fun d => !isSpaceChar d)))
        else c :: go t
    termination_by l => l.length
    decreasing_by
      · exact Nat.lt_succ_of_le (List.dropWhile_sublist _).length_le
      · exact Nat.lt_succ_self _
  ⟨go s.data⟩

/-- `potentialLocality.replace(/^\s*(?:near|...|sector)\s+/i, '')`: drop an
anchored leading keyword prefix, if present. -/
def stripKeywordHead (s : String) : String :=
  let re : Re :=
    .seq .bos
      (.seq (.star (.cls isSpaceChar))
        (.seq (Re.alts (localityKeywords.map Re.wordi)) (Re.plus (.cls isSpaceChar))))
  match reMatchAt re s.data 0 with
  | some (j, _) => ⟨s.data.drop j⟩
  | none => s

/-- `.replace(/\s+/, ' ')` (not global): the first whitespace run becomes a
single space. -/
def collapseFirstWs (s : String) : String :=
  let rec go : List Char → List Char
    | [] => []
    | c :: t =>
        if isSpaceChar c then ' ' :: t.dropWhile isSpaceChar
        else c :: go t
  ⟨go s.data⟩

/-- The clean-up applied to a pattern's capture before validity checking. -/
def cleanLocality (s : String) : String :=
  (collapseFirstWs (stripKeywordHead s.trim)).trim

/-- `extractLocationGeneric fullAddress projectName = (city, locality)`.
A missing argument is the empty string (falsy). -/
def extractLocationGeneric (fullAddress : String) (projectName : String) :
    Option String × Option String :=
  if fullAddress = "" then (none, none)
  else
    let searchText :=
      lowerStr (String.intercalate " " ([fullAddress, projectName].filter (· ≠ "")))
    let foundCity := (cityPatterns.find? (fun pc => reTest pc.1 searchText.data)).map (·.2)
    let fromPatterns :=
      localityPatterns.findSome? fun pattern =>
        match reGroup pattern fullAddress.data 1 with
        | none => none
        | some captured =>
            if captured = [] then none
            else
              let potentialLocality := cleanLocality ⟨captured⟩
              if isValidLocality potentialLocality foundCity then
                some (capitalizeWords potentialLocality)
              else none
    let foundLocality :=
      match fromPatterns with
      | some l => some l
      | none =>
          ((fullAddress.splitOn ",").findSome? fun part =>
            let trimmed := part.trim
            if trimmed ≠ "" && isValidLocality trimmed foundCity then
              some (capitalizeWords trimmed)
            else none)
    (foundCity, foundLocality)

/-- `extractAmenitiesGeneric`: fixed base set, keyword scan over the
`aboutProperty` text, size-based additions, then de-duplication
(`[...new Set(...)]` keeps first occurrences). -/
def extractAmenitiesGeneric (aboutProperty : String) (bhk : Nat) : List String :=
  let base := ["Security", "Water Supply", "Power Backup"]
  let keywordGroups : List (String × List String) :=
    [("Swimming Pool", ["swimming", "pool"]),
     ("Gym", ["gym", "fitness"]),
     ("Park", ["park", "garden"]),
     ("Club House", ["club", "clubhouse"]),
     ("Lift", ["lift", "elevator"]),
     ("Parking", ["parking", "car park"]),
     ("Play Area", ["play", "children"])]
  let withText :=
    if aboutProperty = "" then base
    else
      let about := lowerStr aboutProperty
      base ++ (keywordGroups.filter fun g =>
        g.2.any (fun keyword => strContains about keyword)).map (·.1)
  let withSize := if bhk ≥ 3 then withText ++ ["Club House", "Swimming Pool"] else withText
  let rec dedup : List String → List String → List String
    | [], _ => []
    | a :: t, seen => if seen.contains a then dedup t seen else a :: dedup t (a :: seen)
  dedup withSize []

/-- `extractBuilderGeneric`: first space-delimited word of the project name
plus a fixed suffix. -/
def extractBuilderGeneric (projectName : String) : String :=
  if projectName = "" then "Unknown Builder"
  else
    let name := projectName.trim
    let words := name.splitOn " "
    if words.length > 1 then (words.headD "") ++ " Builders" else name ++ " Builders"

/-- `/["']([^"']+)["']/`: a quoted chunk, as in serialized RERA-id cells. -/
def quotedRe : Re :=
  let quote := Re.cls (fun c => c == '"' || c == '\x27')
  .seq quote
    (.seq (.group 1 (Re.plus (.cls (fun c => c != '"' && c != '\x27')))) quote)

/-- `parseReraId`: the first `/["']([^"']+)["']/` capture, else the raw
input; `null` only for falsy input. -/
def parseReraId (reraId : String) : Option String :=
  if reraId = "" then none
  else
    match reGroup quotedRe reraId.data 1 with
    | some g => some (⟨g⟩ : String)
    | none => some reraId

/-- A model of `JSON.parse` restricted to arrays of double-quoted strings
(the only shape the `propertyImages` cells hold, per the source's comment);
`none` models a thrown `SyntaxError`. -/
def jsonStringArray (l : List Char) : Option (List String) :=
  let skipWs := fun (t : List Char) => t.dropWhile isSpaceChar
  let rec str : List Char → List Char → Option (String × List Char)
    | [], _ => none
    | '"' :: t, acc => some (⟨acc.reverse⟩, t)
    | '\\' :: c :: t, acc =>
        if c == '"' || c == '\\' || c == '/' then str t (c :: acc) else none
    | c :: t, acc => if c == '\\' then none else str t (c :: acc)
  let rec items : Nat → List Char → Option (List String)
    | 0, _ => none
    | f + 1, t =>
        match skipWs t with
        | '"' :: t2 =>
            match str t2 [] with
            | none => none
            | some (s, t3) =>
                match skipWs t3 with
                | ']' :: t4 => if skipWs t4 = [] then some [s] else none
                | ',' :: t4 =>
                    match items f t4 with
                    | none => none
                    | some rest => some (s :: rest)
                | _ => none
        | _ => none
  match skipWs l with
  | '[' :: t =>
      match skipWs t with
      | ']' :: t2 => if skipWs t2 = [] then some [] else none
      | t2 => items (t2.length + 1) t2
  | _ => none

/-- `/\[(.*)\]/`: a bracketed chunk (`.` does not cross a newline). -/
def bracketRe : Re :=
  .seq (Re.chr '[') (.seq (.group 1 (.star (.cls (fun c => c != '\n')))) (Re.chr ']'))

/-- `parseImages`: leftmost `/\[(.*)\]/` match (the whole match, `match[0]`)
fed to `JSON.parse`; the empty list for falsy input, no match, or a parse
error (the `catch` branch). -/
def parseImages (imagesStr : String) : List String :=
  if imagesStr = "" then []
  else
    match reMatch0 bracketRe imagesStr.data with
    | none => []
    | some whole => (jsonStringArray whole).getD []

/-! ## Data model: raw CSV rows and merged property entries -/

/-- A `project.csv` row (a missing cell is the empty string). -/
structure ProjectRow where
  id : String
  projectName : String
  slug : String
  projectType : String
  status : String
  reraId : String
deriving DecidableEq, Repr

/-- A `ProjectAddress.csv` row. -/
structure AddressRow where
  projectId : String
  fullAddress : String
  pincode : String
deriving DecidableEq, Repr

/-- A `ProjectConfiguration.csv` row. -/
structure ConfigRow where
  id : String
  projectId : String
  type : String
deriving DecidableEq, Repr

/-- A `ProjectConfigurationVariant.csv` row. -/
structure VariantRow where
  id : String
  configurationId : String
  price : String
  carpetArea : String
  aboutProperty : String
  propertyImages : String
  floorPlanImage : String
deriving DecidableEq, Repr

/-- A merged property entry, the object built by `createPropertyEntry`.
Fields that read through `variant?.x` / `address?.x` are `Option`s. -/
structure Property where
  id : String
  projectName : String
  city : Option String
  locality : Option String
  bhk : Nat
  price : ℚ
  possession : String
  area : ℚ
  amenities : List String
  slug : String
  builder : String
  fullAddress : Option String
  pincode : Option String
  projectType : String
  status : String
  reraId : Option String
  projectId : String
  configId : String
  variantId : Option String
  propertyImages : List String
  floorPlanImage : Option String
deriving DecidableEq, Repr

/-- JS truthiness of an optional string (`undefined`, `null` and `""` are
falsy). -/
def truthyS : Option String → Bool
  | none => false
  | some s => s ≠ ""

/-- `variant?.field` / `address?.field` as a string (empty when the object
is missing, which is falsy just like `undefined`). -/
def optField {α : Type} (o : Option α) (f : α → String) : String :=
  match o with
  | some x => f x
  | none => ""

/-- `variant?.id || config.id`: the entry id falls back to the
configuration id when the variant is missing or its id is falsy. -/
def entryId (variant : Option VariantRow) (config : ConfigRow) : String :=
  match variant with
  | some v => if v.id ≠ "" then v.id else config.id
  | none => config.id

/-- `createPropertyEntry(project, config, variant, address)`: extract the
essential fields, return `null` when any of `bhk`/`price`/`area`/`city` is
falsy, otherwise assemble the property entry (processdata.js lines 140-188;
nothing in the body can throw, so the `catch` branch is dead). -/
def createPropertyEntry (project : ProjectRow) (config : ConfigRow)
    (variant : Option VariantRow) (address : Option AddressRow) : Option Property :=
  match extractBHKGeneric config.type, parsePriceGeneric (optField variant (·.price)),
      parseAreaGeneric (optField variant (·.carpetArea)),
      (extractLocationGeneric (optField address (·.fullAddress)) project.projectName).1 with
  | some b, some pr, some ar, some city =>
      if b = 0 ∨ pr = 0 ∨ ar = 0 ∨ city = "" then none
      else
        some
          { id := entryId variant config
            projectName := project.projectName
            city := some city
            locality :=
              (extractLocationGeneric (optField address (·.fullAddress)) project.projectName).2
            bhk := b
            price := pr
            possession := parsePossessionGeneric project.status
            area := ar
            amenities := extractAmenitiesGeneric (optField variant (·.aboutProperty)) b
            slug := project.slug
            builder := extractBuilderGeneric project.projectName
            fullAddress := address.map (·.fullAddress)
            pincode := address.map (·.pincode)
            projectType := project.projectType
            status := project.status
            reraId := parseReraId project.reraId
            projectId := project.id
            configId := config.id
            variantId := variant.map (·.id)
            propertyImages := parseImages (optField variant (·.propertyImages))
            floorPlanImage := variant.map (·.floorPlanImage) }
  | _, _, _, _ => none

/-- `filterValidProperties`: the Validator's range/nullability gate over
merged entries (processdata.js lines 457-495). -/
def filterValidProperties (properties : List Property) : List Property :=
  properties.filter fun property =>
    if property.price = 0 ∨ property.price < 500000 ∨ property.price > 500000000 then
      false
    else if property.area = 0 ∨ property.area < 300 ∨ property.area > 5000 then false
    else if property.bhk = 0 ∨ property.bhk < 1 ∨ property.bhk > 10 then false
    else if !truthyS property.city then false
    else true

/-- The drafts the Merger builds for one configuration: one call to
`createPropertyEntry` with no variant when the configuration has no variant
rows, one call per matching variant otherwise (mergeData lines 111-123). -/
def configDrafts (project : ProjectRow) (config : ConfigRow)
    (address : Option AddressRow) (variants : List VariantRow) : List (Option Property) :=
  let configVariants := variants.filter (fun variant => variant.configurationId == config.id)
  if configVariants.isEmpty then [createPropertyEntry project config none address]
  else configVariants.map fun variant => createPropertyEntry project config (some variant) address

/-- The drafts for one project: its address row is the first with a matching
`projectId`, and each of its configurations contributes `configDrafts`. -/
def projectDrafts (project : ProjectRow) (addresses : List AddressRow)
    (configurations : List ConfigRow) (variants : List VariantRow) : List (Option Property) :=
  let address := addresses.find? (fun addr => addr.projectId == project.id)
  let projectConfigs := configurations.filter (fun config => config.projectId == project.id)
  (projectConfigs.map fun config => configDrafts project config address variants).flatten

/-- `mergeData`: all drafts over all projects (`null` drafts discarded, as
by `if (property) mergedData.push(property)`), then the Validator pass. -/
def mergeData (projects : List ProjectRow) (addresses : List AddressRow)
    (configurations : List ConfigRow) (variants : List VariantRow) : List Property :=
  let mergedData :=
    ((projects.map fun project =>
        projectDrafts project addresses configurations variants).flatten).filterMap id
  filterValidProperties mergedData

/-! ## Query Filter Engine (server.js `applyFilters`) -/

/-- The structured filter object.  A `none` field models an absent key; a
`some` field models a present key whose value may still be falsy (`0`,
`""`) or the literal string `"null"`, which the engine treats specially. -/
structure Filters where
  city : Option String := none
  bhk : Option Int := none
  maxPrice : Option ℚ := none
  locality : Option String := none
  possession : Option String := none
deriving DecidableEq, Repr

/-- JS truthiness of an optional number. -/
def truthyI : Option Int → Bool
  | none => false
  | some n => n ≠ 0

/-- JS truthiness of an optional number. -/
def truthyQ : Option ℚ → Bool
  | none => false
  | some q => q ≠ 0

/-- The city predicate:
`property.city && property.city.toLowerCase().includes(filters.city.toLowerCase())`. -/
def cityPred (fc : String) (p : Property) : Bool :=
  truthyS p.city && strContains (lowerStr ((p.city).getD "")) (lowerStr fc)

/-- The bhk predicate: `property.bhk === filters.bhk`. -/
def bhkPred (fb : Int) (p : Property) : Bool := (p.bhk : Int) == fb

/-- The budget predicate: `property.price <= filters.maxPrice`. -/
def maxPricePred (fm : ℚ) (p : Property) : Bool := p.price ≤ fm

/-- The locality predicate:
`property.locality && property.locality.toLowerCase().includes(...)`. -/
def localityPred (fl : String) (p : Property) : Bool :=
  truthyS p.locality && strContains (lowerStr ((p.locality).getD "")) (lowerStr fl)

/-- The possession predicate:
`property.possession && property.possession.toLowerCase().includes(...)`. -/
def possessionPred (fp : String) (p : Property) : Bool :=
  p.possession ≠ "" && strContains (lowerStr p.possession) (lowerStr fp)

/-- `applyFilters(properties, filters)` (server.js lines 93-124): five
sequential `Array.filter` passes, each guarded by the presence (and
truthiness) of its key; `locality` and `possession` are additionally
skipped when their value is the literal string `'null'`. -/
def applyFilters (properties : List Property) (filters : Filters) : List Property :=
  let results := properties
  let results :=
    if truthyS filters.city then results.filter (cityPred (filters.city.getD "")) else results
  let results :=
    if truthyI filters.bhk then results.filter (bhkPred (filters.bhk.getD 0)) else results
  let results :=
    if truthyQ filters.maxPrice then results.filter (maxPricePred (filters.maxPrice.getD 0))
    else results
  let results :=
    if truthyS filters.locality && filters.locality != some "null" then
      results.filter (localityPred (filters.locality.getD ""))
    else results
  let results :=
    if truthyS filters.possession && filters.possession != some "null" then
      results.filter (possessionPred (filters.possession.getD ""))
    else results
  results

/-! ## Fallback Parser and filter-extraction gate (geminiService.js) -/

/-- `/(\d+(?:\.\d+)?)/` as group 1: the budget amount. -/
def amountRe : Re :=
  .group 1 (.seq (Re.plus (.cls Char.isDigit))
    (.opt (.seq (Re.chr '.') (Re.plus (.cls Char.isDigit)))))

/-- `under|upto|below \s* ₹? \s* amount \s* (unit-alternatives)` — the shape
shared by the first four budget patterns. -/
def budgetPrefixRe (kw : String) (units : List String) : Re :=
  .seq (Re.wordi kw)
    (.seq (.star (.cls isSpaceChar))
      (.seq (.opt (Re.chr '₹'))
        (.seq (.star (.cls isSpaceChar))
          (.seq amountRe
            (.seq (.star (.cls isSpaceChar))
              (.group 2 (Re.alts (units.map Re.wordi))))))))

/-- A bare `amount unit` budget pattern (patterns 5 and 6). -/
def budgetBareRe (units : List String) : Re :=
  .seq amountRe
    (.seq (.star (.cls isSpaceChar)) (.group 2 (Re.alts (units.map Re.wordi))))

/-- The six ordered budget patterns of `enhancedFilterExtraction`. -/
def budgetPatterns : List Re :=
  [budgetPrefixRe "under" ["cr", "crore"],
   budgetPrefixRe "upto" ["cr", "crore"],
   budgetPrefixRe "below" ["cr", "crore"],
   budgetPrefixRe "under" ["lakh", "lac"],
   budgetBareRe ["cr", "crore"],
   budgetBareRe ["lakh", "lac"]]

/-- The four ordered BHK patterns (`\d` is a single digit). -/
def bhkPatterns : List Re :=
  let digit := Re.cls Char.isDigit
  let ws := Re.cls isSpaceChar
  [.seq (.group 1 digit) (.seq (.star ws) (Re.wordi "bhk")),
   .seq (.group 1 digit) (.seq (.star ws) (Re.wordi "bedroom")),
   .seq (.group 1 digit) (.seq (.star ws) (Re.wordi "bed")),
   .seq (.group 1 digit)
     (.seq (.star ws)
       (.seq (Re.chri 'b')
         (.seq (.opt (Re.chr '/')) (.seq (Re.chri 'h') (.seq (.opt (Re.chr '/')) (Re.chri 'k'))))))]

/-- `parseInt` on a nonempty digit string. -/
def digitsToInt (ds : List Char) : Int :=
  (ds.foldl (fun acc c => acc * 10 + (c.toNat - '0'.toNat)) 0 : Nat)

/-- The fixed city list of the fallback parser, in source order. -/
def fallbackCities : List String :=
  ["pune", "mumbai", "bangalore", "delhi", "hyderabad", "chennai"]

/-- The fixed locality list of the fallback parser, in source order. -/
def fallbackLocalities : List String :=
  ["chembur", "shivajinagar", "ashoknagar", "model colony", "sindhi society",
   "wakad", "baner", "hinjewadi", "kharadi", "kothrud", "andheri", "bandra"]

/-- `enhancedFilterExtraction(message)` (geminiService.js lines 394-468):
first-match-wins keyword/regex heuristics over the lowercased message, one
independent field at a time. -/
def enhancedFilterExtraction (message : String) : Filters :=
  let lowerMessage := lowerStr message
  let city := fallbackCities.find? fun c => strContains lowerMessage c
  let bhk :=
    (bhkPatterns.findSome? fun pattern => reGroup pattern lowerMessage.data 1).map digitsToInt
  let maxPrice :=
    budgetPatterns.findSome? fun pattern =>
      match reGroup pattern lowerMessage.data 1, reGroup pattern lowerMessage.data 2 with
      | some amtDigits, some unitChars =>
          (parseFloatQ amtDigits).map fun amount =>
            let unit := lowerStr ⟨unitChars⟩
            if unit = "cr" || unit = "crore" then amount * 10000000 else amount * 100000
      | _, _ => none
  let locality := fallbackLocalities.find? fun l => strContains lowerMessage l
  let possession :=
    if strContains lowerMessage "ready" || strContains lowerMessage "move in" then
      some "Ready to Move"
    else if strContains lowerMessage "under construction" then some "Under Construction"
    else none
  { city := city, bhk := bhk, maxPrice := maxPrice, locality := locality,
    possession := possession }

/-- The eight specific-property-query keywords of `extractFilters`. -/
def specificKeywords : List String :=
  ["address of", "details of", "information about", "show me",
   "tell me about", "where is", "location of", "full address of"]

/-- The specific-query gate of `extractFilters`. -/
def isSpecificQuery (userMessage : String) : Bool :=
  specificKeywords.any fun keyword => strContains (lowerStr userMessage) keyword

/-- `extractFilters(userMessage)`: empty filters for a specific-property
query; otherwise the LLM result when the call succeeds, and the fallback
parser when it fails.  The external LLM is an oracle parameter `llm`
(`none` models a thrown/failed call). -/
def extractFilters (llm : String → Option Filters) (userMessage : String) : Filters :=
  if isSpecificQuery userMessage then {}
  else
    match llm userMessage with
    | some filters => filters
    | none => enhancedFilterExtraction userMessage

/-! ## Derived definitions used in stating the claims -/

/-- The first property of the spec's two-property example (fields the
example leaves out are neutral). -/
def examplePune : Property :=
  { id := "1", projectName := "A", city := some "Pune", locality := none,
    bhk := 2, price := 9000000, possession := "", area := 0, amenities := [],
    slug := "", builder := "", fullAddress := none, pincode := none,
    projectType := "", status := "", reraId := none, projectId := "",
    configId := "", variantId := none, propertyImages := [], floorPlanImage := none }

/-- The second property of the spec's two-property example. -/
def exampleMumbai : Property :=
  { id := "2", projectName := "B", city := some "Mumbai", locality := none,
    bhk := 3, price := 15000000, possession := "", area := 0, amenities := [],
    slug := "", builder := "", fullAddress := none, pincode := none,
    projectType := "", status := "", reraId := none, projectId := "",
    configId := "", variantId := none, propertyImages := [], floorPlanImage := none }

/-- The filter object with every falsy (`0`/`""`) or `'null'`-string value
replaced by an absent key. -/
def defalsify (f : Filters) : Filters where
  city := match f.city with
          | some c => if c = "" then none else some c
          | none => none
  bhk := match f.bhk with
         | some b => if b = 0 then none else some b
         | none => none
  maxPrice := match f.maxPrice with
              | some m => if m = 0 then none else some m
              | none => none
  locality := match f.locality with
              | some l => if l = "" ∨ l = "null" then none else some l
              | none => none
  possession := match f.possession with
                | some po => if po = "" ∨ po = "null" then none else some po
                | none => none

/-- The engine's five per-key passes as a list of predicates (an inactive
key contributes the constant-true predicate). -/
def filterPreds (f : Filters) : List (Property → Bool) :=
  [fun p => if truthyS f.city then cityPred (f.city.getD "") p else true,
   fun p => if truthyI f.bhk then bhkPred (f.bhk.getD 0) p else true,
   fun p => if truthyQ f.maxPrice then maxPricePred (f.maxPrice.getD 0) p else true,
   fun p => if truthyS f.locality && f.locality != some "null" then
     localityPred (f.locality.getD "") p else true,
   fun p => if truthyS f.possession && f.possession != some "null" then
     possessionPred (f.possession.getD "") p else true]

/-- Sequential application of a list of filter passes. -/
def seqFilter (qs : List (Property → Bool)) (l : List Property) : List Property :=
  qs.foldl (fun acc q => acc.filter q) l

/-! ## Claims -/

/-- **C1.** Every property entry in the validated collection (the output of
`filterValidProperties`) has a non-null (and non-empty) city, `bhk` in
[1, 10], `area` in [300, 5000] and `price` in [500000, 500000000]; and an
entry of the input failing any of these checks is dropped, never retained:
membership in the output is exactly membership in the input plus the four
checks. -/
theorem validated_collection_invariant (props : List Property) (p : Property) :
    p ∈ filterValidProperties props ↔
      p ∈ props ∧ (∃ c, p.city = some c ∧ c ≠ "") ∧
      1 ≤ p.bhk ∧ p.bhk ≤ 10 ∧
      (300 : ℚ) ≤ p.area ∧ p.area ≤ 5000 ∧
      (500000 : ℚ) ≤ p.price ∧ p.price ≤ 500000000 := by
  simp only [filterValidProperties, List.mem_filter]
  refine and_congr_right fun _ => ?_
  split_ifs with h1 h2 h3 h4
  · simp only [false_iff]
    rintro ⟨-, -, -, -, -, hp1, hp2⟩
    rcases h1 with h | h | h <;> linarith
  · simp only [false_iff]
    rintro ⟨-, -, -, ha1, ha2, -, -⟩
    rcases h2 with h | h | h <;> linarith
  · simp only [false_iff]
    rintro ⟨-, hb1, hb2, -⟩
    rcases h3 with h | h | h <;> omega
  · simp only [false_iff]
    rintro ⟨⟨c, hc, hcne⟩, -⟩
    simp [truthyS, hc, hcne] at h4
  · simp only [true_iff]
    push_neg at h1 h2 h3
    refine ⟨?_, by omega, by omega, by linarith [h2.2.1], by linarith [h2.2.2],
      by linarith [h1.2.1], by linarith [h1.2.2]⟩
    rcases hc : p.city with _ | c
    · simp [truthyS, hc] at h4
    · exact ⟨c, rfl, by simpa [truthyS, hc] using h4⟩

/-- **C2.** `parsePriceGeneric`, on the numeric value parsed after stripping
non-digit/non-decimal characters: values below 100 give `null`; values in
[100, 1000) are multiplied by 100000 (lakhs); values in [1000, 100000) are
multiplied by 100000 only if at most 200 and divisible by 10 (a vacuous
condition there), else returned as-is; values above 500000000 give `null`;
the remaining values ([100000, 500000000]) are returned unchanged. -/
theorem parsePrice_unit_heuristic (s : String) (q : ℚ)
    (h : parseFloatQ (stripNonNumeric s) = some q) :
    (q < 100 → parsePriceGeneric s = none) ∧
    (100 ≤ q ∧ q < 1000 → parsePriceGeneric s = some (q * 100000)) ∧
    (1000 ≤ q ∧ q < 100000 →
      parsePriceGeneric s =
        if q ≤ 200 ∧ isMultipleOf10 q then some (q * 100000) else some q) ∧
    (500000000 < q → parsePriceGeneric s = none) ∧
    (100000 ≤ q ∧ q ≤ 500000000 → parsePriceGeneric s = some q) := by
  by_cases hs : s = ""
  · rw [hs] at h
    simp [stripNonNumeric, parseFloatQ] at h
  · simp only [parsePriceGeneric, hs, if_false, h]
    refine ⟨fun hq => ?_, fun hq => ?_, fun hq => ?_, fun hq => ?_, fun hq => ?_⟩ <;>
      split_ifs <;> first | rfl | linarith
  
/-- **C3.** (Evaluation at the failing input.)  `parsePrice("80")` returns
`null`: the stripped value 80 falls in the `< 100` noise branch, although
the branch comments ("80 = 80 lakhs") and the spec expect 8,000,000. -/
theorem parsePrice_80_is_none : parsePriceGeneric "80" = none := by decide

theorem parsePrice_spec_check :
    parseFloatQ (stripNonNumeric "9000000") = some 9000000 ∧
    parsePriceGeneric "9000000" = some 9000000 := by
  have h : parseFloatQ (stripNonNumeric "9000000") = some 9000000 := by decide
  exact ⟨h, (parsePrice_unit_heuristic "9000000" 9000000 h).2.2.2.2 (by norm_num)⟩

/-- Any entry `createPropertyEntry` returns carries its non-variant fields
straight from the project, configuration and address rows (and its
`variantId` from the variant argument); none of them depends on the
variant except `variantId`. -/
theorem createPropertyEntry_fields (project : ProjectRow) (config : ConfigRow)
    (variant : Option VariantRow) (address : Option AddressRow) (p : Property)
    (h : createPropertyEntry project config variant address = some p) :
    p.projectName = project.projectName ∧
    p.city = (extractLocationGeneric (optField address (·.fullAddress)) project.projectName).1 ∧
    p.locality = (extractLocationGeneric (optField address (·.fullAddress)) project.projectName).2 ∧
    p.bhk = (extractBHKGeneric config.type).getD 0 ∧
    p.possession = parsePossessionGeneric project.status ∧
    p.slug = project.slug ∧
    p.builder = extractBuilderGeneric project.projectName ∧
    p.fullAddress = address.map (·.fullAddress) ∧
    p.pincode = address.map (·.pincode) ∧
    p.projectType = project.projectType ∧
    p.status = project.status ∧
    p.reraId = parseReraId project.reraId ∧
    p.projectId = project.id ∧
    p.configId = config.id ∧
    p.variantId = variant.map (·.id) := by
  unfold createPropertyEntry at h
  split at h
  case _ b pr ar city hb hpr har hcity =>
    split_ifs at h
    simp only [Option.some.injEq] at h
    subst h
    simp [hcity, hb]
  case _ => simp at h

/-- **C4.** For a project and one of its configurations, the Merger builds
exactly one draft (with `variantId` unset) when no variant row matches the
configuration, and exactly one draft per matching variant row otherwise;
and any two entries built from two variants of the same configuration agree
on every non-variant field. -/
theorem merger_one_draft_per_variant (project : ProjectRow) (config : ConfigRow)
    (address : Option AddressRow) (variants : List VariantRow) :
    (variants.filter (fun v => v.configurationId == config.id) = [] →
        configDrafts project config address variants =
          [createPropertyEntry project config none address] ∧
        ∀ p, createPropertyEntry project config none address = some p →
          p.variantId = none) ∧
    (variants.filter (fun v => v.configurationId == config.id) ≠ [] →
        configDrafts project config address variants =
          (variants.filter fun v => v.configurationId == config.id).map
            fun v => createPropertyEntry project config (some v) address) ∧
    (∀ v₁ v₂ p₁ p₂,
        createPropertyEntry project config (some v₁) address = some p₁ →
        createPropertyEntry project config (some v₂) address = some p₂ →
        p₁.projectName = p₂.projectName ∧ p₁.city = p₂.city ∧
        p₁.locality = p₂.locality ∧ p₁.bhk = p₂.bhk ∧
        p₁.possession = p₂.possession ∧ p₁.slug = p₂.slug ∧
        p₁.builder = p₂.builder ∧ p₁.fullAddress = p₂.fullAddress ∧
        p₁.pincode = p₂.pincode ∧ p₁.projectType = p₂.projectType ∧
        p₁.status = p₂.status ∧ p₁.reraId = p₂.reraId ∧
        p₁.projectId = p₂.projectId ∧ p₁.configId = p₂.configId) := by
  refine ⟨fun hempty => ⟨?_, fun p hp => ?_⟩, fun hne => ?_, fun v₁ v₂ p₁ p₂ h₁ h₂ => ?_⟩
  · simp [configDrafts, hempty]
  · have := (createPropertyEntry_fields project config none address p hp).2.2.2.2.2.2.2.2.2.2.2.2.2.2
    simpa using this
  · simp [configDrafts, List.isEmpty_iff, hne]
  · obtain ⟨e1, e2, e3, e4, e5, e6, e7, e8, e9, e10, e11, e12, e13, e14, -⟩ :=
      createPropertyEntry_fields project config (some v₁) address p₁ h₁
    obtain ⟨f1, f2, f3, f4, f5, f6, f7, f8, f9, f10, f11, f12, f13, f14, -⟩ :=
      createPropertyEntry_fields project config (some v₂) address p₂ h₂
    exact ⟨e1.trans f1.symm, e2.trans f2.symm, e3.trans f3.symm, e4.trans f4.symm,
      e5.trans f5.symm, e6.trans f6.symm, e7.trans f7.symm, e8.trans f8.symm,
      e9.trans f9.symm, e10.trans f10.symm, e11.trans f11.symm, e12.trans f12.symm,
      e13.trans f13.symm, e14.trans f14.symm⟩

/-! ### The Query Filter Engine claims -/

/-- Membership through one guarded filter pass. -/
theorem mem_condFilter {p : Property} (cond : Bool) (q : Property → Bool)
    (l : List Property) :
    (p ∈ if cond then l.filter q else l) ↔ p ∈ l ∧ (cond = true → q p = true) := by
  cases cond <;> simp [List.mem_filter]

/-- **C5 (amended).** Membership in the engine's output is membership in the
input plus one independent predicate per present-and-truthy key (substring
match for city/locality/possession, equality for bhk, ≤ for maxPrice);
absent keys — and falsy or `'null'`-valued keys, which is where the claim
as stated fails — impose no constraint.  On the spec's two-property example
with filter `{city := "pune"}` the engine returns exactly the first entry. -/
theorem query_filter_engine_characterization :
    (∀ (props : List Property) (f : Filters) (p : Property),
        p ∈ applyFilters props f ↔
          p ∈ props ∧
          (∀ c, f.city = some c → c ≠ "" → cityPred c p = true) ∧
          (∀ b, f.bhk = some b → b ≠ 0 → bhkPred b p = true) ∧
          (∀ m, f.maxPrice = some m → m ≠ 0 → maxPricePred m p = true) ∧
          (∀ l, f.locality = some l → l ≠ "" → l ≠ "null" → localityPred l p = true) ∧
          (∀ po, f.possession = some po → po ≠ "" → po ≠ "null" →
            possessionPred po p = true)) ∧
    applyFilters [examplePune, exampleMumbai] { city := some "pune" } = [examplePune] := by
  constructor
  · intro props f p
    unfold applyFilters
    simp only [mem_condFilter]
    constructor
    · rintro ⟨⟨⟨⟨⟨hp, h1⟩, h2⟩, h3⟩, h4⟩, h5⟩
      refine ⟨hp, fun c hc hne => ?_, fun b hb hne => ?_, fun m hm hne => ?_,
        fun l hl hne hnn => ?_, fun po hpo hne hnn => ?_⟩
      · simpa [hc] using h1 (by simp [truthyS, hc, hne])
      · simpa [hb] using h2 (by simp [truthyI, hb, hne])
      · simpa [hm] using h3 (by simp [truthyQ, hm, hne])
      · simpa [hl] using h4 (by simp [truthyS, hl, hne, hnn])
      · simpa [hpo] using h5 (by simp [truthyS, hpo, hne, hnn])
    · rintro ⟨hp, h1, h2, h3, h4, h5⟩
      refine ⟨⟨⟨⟨⟨hp, fun hc => ?_⟩, fun hb => ?_⟩, fun hm => ?_⟩, fun hl => ?_⟩,
        fun hpo => ?_⟩
      · rcases hx : f.city with _ | c
        · simp [truthyS, hx] at hc
        · simpa [hx] using h1 c hx (by simpa [truthyS, hx] using hc)
      · rcases hx : f.bhk with _ | b
        · simp [truthyI, hx] at hb
        · simpa [hx] using h2 b hx (by simpa [truthyI, hx] using hb)
      · rcases hx : f.maxPrice with _ | m
        · simp [truthyQ, hx] at hm
        · simpa [hx] using h3 m hx (by simpa [truthyQ, hx] using hm)
      · rcases hx : f.locality with _ | l
        · simp [truthyS, hx] at hl
        · rw [hx] at hl
          simp only [Bool.and_eq_true, bne_iff_ne, ne_eq, Option.some.injEq] at hl
          simpa [hx] using h4 l hx (by simpa [truthyS] using hl.1) hl.2
      · rcases hx : f.possession with _ | po
        · simp [truthyS, hx] at hpo
        · rw [hx] at hpo
          simp only [Bool.and_eq_true, bne_iff_ne, ne_eq, Option.some.injEq] at hpo
          simpa [hx] using h5 po hx (by simpa [truthyS] using hpo.1) hpo.2
  · decide

/-- **C5 (counterexample).** A present `maxPrice: 0` key: the claim as
stated demands the `price ≤ maxPrice` predicate be applied (which would
drop the sole entry, whose price is positive), but the engine returns the
collection unchanged. -/
theorem maxPrice_zero_key_not_applied :
    applyFilters [examplePune] { maxPrice := some 0 } = [examplePune] ∧
    ¬ (examplePune.price ≤ (0 : ℚ)) := by
  constructor
  · decide
  · norm_num [examplePune]

/-- **C6 (counterexample).** A present `bhk: 0` key: the claim says it still
constrains the result set (exact equality would drop the sole entry, whose
bhk is 2), but the engine returns the collection unchanged. -/
theorem bhk_zero_key_not_applied :
    applyFilters [examplePune] { bhk := some 0 } = [examplePune] ∧
    examplePune.bhk ≠ 0 := by decide

/-- **C6 (amended).** A key that is present with a falsy value (`bhk: 0`,
`maxPrice: 0`, `city: ""`, or a `""`/`"null"` locality or possession) is
treated exactly like an absent key: the engine behaves identically on any
filter object and its defalsified form. -/
theorem falsy_key_same_as_absent (props : List Property) (f : Filters) :
    applyFilters props f = applyFilters props (defalsify f) := by
  have hcity : ∀ l : List Property,
      (if truthyS f.city then l.filter (cityPred (f.city.getD "")) else l) =
      (if truthyS (defalsify f).city then
        l.filter (cityPred ((defalsify f).city.getD "")) else l) := by
    intro l
    rcases hx : f.city with _ | c
    · simp [defalsify, hx]
    · by_cases hc : c = "" <;> simp [defalsify, hx, truthyS, hc]
  have hbhk : ∀ l : List Property,
      (if truthyI f.bhk then l.filter (bhkPred (f.bhk.getD 0)) else l) =
      (if truthyI (defalsify f).bhk then
        l.filter (bhkPred ((defalsify f).bhk.getD 0)) else l) := by
    intro l
    rcases hx : f.bhk with _ | b
    · simp [defalsify, hx]
    · by_cases hb : b = 0 <;> simp [defalsify, hx, truthyI, hb]
  have hmax : ∀ l : List Property,
      (if truthyQ f.maxPrice then l.filter (maxPricePred (f.maxPrice.getD 0)) else l) =
      (if truthyQ (defalsify f).maxPrice then
        l.filter (maxPricePred ((defalsify f).maxPrice.getD 0)) else l) := by
    intro l
    rcases hx : f.maxPrice with _ | m
    · simp [defalsify, hx]
    · by_cases hm : m = 0 <;> simp [defalsify, hx, truthyQ, hm]
  have hloc : ∀ l : List Property,
      (if truthyS f.locality && f.locality != some "null" then
        l.filter (localityPred (f.locality.getD "")) else l) =
      (if truthyS (defalsify f).locality && (defalsify f).locality != some "null" then
        l.filter (localityPred ((defalsify f).locality.getD "")) else l) := by
    intro l
    rcases hx : f.locality with _ | s
    · simp [defalsify, hx]
    · by_cases h1 : s = "" ∨ s = "null"
      · rcases h1 with h | h <;> simp [defalsify, hx, truthyS, h]
      · push_neg at h1
        simp [defalsify, hx, truthyS, h1.1, h1.2]
  have hposs : ∀ l : List Property,
      (if truthyS f.possession && f.possession != some "null" then
        l.filter (possessionPred (f.possession.getD "")) else l) =
      (if truthyS (defalsify f).possession && (defalsify f).possession != some "null" then
        l.filter (possessionPred ((defalsify f).possession.getD "")) else l) := by
    intro l
    rcases hx : f.possession with _ | s
    · simp [defalsify, hx]
    · by_cases h1 : s = "" ∨ s = "null"
      · rcases h1 with h | h <;> simp [defalsify, hx, truthyS, h]
      · push_neg at h1
        simp [defalsify, hx, truthyS, h1.1, h1.2]
  show applyFilters props f = applyFilters props (defalsify f)
  unfold applyFilters
  dsimp only
  rw [hposs, hloc, hmax, hbhk, hcity]

theorem seqFilter_eq_filter_all (qs : List (Property → Bool)) (l : List Property) :
    seqFilter qs l = l.filter fun p => qs.all fun q => q p := by
  induction qs generalizing l with
  | nil => simp [seqFilter]
  | cons q qs ih =>
      have h1 : seqFilter (q :: qs) l = seqFilter qs (l.filter q) := rfl
      rw [h1, ih, List.filter_filter]
      refine List.filter_congr fun p _ => ?_
      simp [Bool.and_comm]

theorem perm_all_eq {qs rs : List (Property → Bool)} (h : qs.Perm rs) (p : Property) :
    (qs.all fun q => q p) = rs.all fun q => q p := by
  rw [Bool.eq_iff_iff]
  simp only [List.all_eq_true]
  exact ⟨fun hq q hm => hq q (h.mem_iff.mpr hm), fun hq q hm => hq q (h.mem_iff.mp hm)⟩

theorem applyFilters_eq_seqFilter (props : List Property) (f : Filters) :
    applyFilters props f = seqFilter (filterPreds f) props := by
  have hstage : ∀ (c : Bool) (q : Property → Bool) (l : List Property),
      (if c then l.filter q else l) = l.filter fun p => if c then q p else true := by
    intro c q l
    cases c <;> simp
  unfold applyFilters filterPreds seqFilter
  dsimp only [List.foldl]
  rw [hstage, hstage, hstage, hstage, hstage]

/-- **C7.** Applying the engine's per-key predicates in any order yields the
same result set as `applyFilters`: `seqFilter` over any permutation of the
predicate list agrees with the engine. -/
theorem filter_order_irrelevant (props : List Property) (f : Filters)
    (qs : List (Property → Bool)) (h : qs.Perm (filterPreds f)) :
    seqFilter qs props = applyFilters props f := by
  rw [applyFilters_eq_seqFilter, seqFilter_eq_filter_all, seqFilter_eq_filter_all]
  exact List.filter_congr fun p _ => perm_all_eq h p

/-- **C7 (witness).** The reversed predicate list on the two-property
example with the `pune` city filter. -/
theorem filter_order_irrelevant_check :
    seqFilter ((filterPreds { city := some "pune" }).reverse)
        [examplePune, exampleMumbai] =
      applyFilters [examplePune, exampleMumbai] { city := some "pune" } :=
  filter_order_irrelevant _ _ _ (List.reverse_perm _)

/-! ### Fallback parser, parse-failure behavior, and the extraction gate -/

/-- **C8.** The Fallback Parser on `"3BHK in Pune under 1.2 Cr"` yields
exactly `{city: "pune", bhk: 3, maxPrice: 12000000}` (1.2 crore converted
at ×10,000,000; no locality or possession key). -/
theorem fallback_parser_example :
    enhancedFilterExtraction "3BHK in Pune under 1.2 Cr" =
      { city := some "pune", bhk := some 3, maxPrice := some 12000000 } := by
  have hg1 : reGroup (budgetPrefixRe "under" ["cr", "crore"])
      (lowerStr "3BHK in Pune under 1.2 Cr").data 1 = some ['1', '.', '2'] := by decide
  have hg2 : reGroup (budgetPrefixRe "under" ["cr", "crore"])
      (lowerStr "3BHK in Pune under 1.2 Cr").data 2 = some ['c', 'r'] := by decide
  have hpf : parseFloatQ ['1', '.', '2'] =
      some ((1 : ℚ) + (2 : ℚ) / ((10 ^ 1 : Nat) : ℚ)) := rfl
  unfold enhancedFilterExtraction
  dsimp only
  rw [show (fallbackCities.find? fun c =>
      strContains (lowerStr "3BHK in Pune under 1.2 Cr") c) = some "pune" from by decide]
  rw [show (bhkPatterns.findSome? fun pattern =>
      reGroup pattern (lowerStr "3BHK in Pune under 1.2 Cr").data 1) = some ['3'] from by decide]
  rw [show (fallbackLocalities.find? fun l =>
      strContains (lowerStr "3BHK in Pune under 1.2 Cr") l) = none from by decide]
  rw [show strContains (lowerStr "3BHK in Pune under 1.2 Cr") "ready" = false from by decide]
  rw [show strContains (lowerStr "3BHK in Pune under 1.2 Cr") "move in" = false from by decide]
  rw [show strContains (lowerStr "3BHK in Pune under 1.2 Cr") "under construction" = false
    from by decide]
  simp only [budgetPatterns, List.findSome?_cons, hg1, hg2, hpf, Option.map_some]
  norm_num [digitsToInt]
  decide

/-- **C9 (counterexample).** On `"ABC123"` the quoted-chunk extraction
fails, yet `parseReraId` returns the raw input rather than `null`. -/
theorem parseReraId_failure_returns_raw :
    reGroup quotedRe "ABC123".data 1 = none ∧
    parseReraId "ABC123" = some "ABC123" := by decide

/-- **C9 (amended).** The parse functions are total — on malformed input
they return a value rather than raising — and on parse failure
`parseImages` returns the empty list, while `parseReraId` returns the raw
input string unchanged, giving `null` exactly for missing (falsy) input. -/
theorem parse_failure_fallbacks (s t : String) :
    (parseReraId s = none ↔ s = "") ∧
    (∀ g, reGroup quotedRe s.data 1 = some g → parseReraId s = some (⟨g⟩ : String) ∨ s = "") ∧
    (reGroup quotedRe s.data 1 = none → parseReraId s = some s ∨ s = "") ∧
    ((reMatch0 bracketRe t.data).bind jsonStringArray = none → parseImages t = []) := by
  refine ⟨?_, ?_, ?_, ?_⟩
  · unfold parseReraId
    by_cases hs : s = ""
    · simp [hs]
    · simp only [hs, if_false, iff_false]
      split <;> simp [hs]
  · intro g hg
    unfold parseReraId
    by_cases hs : s = ""
    · right; exact hs
    · left; simp [hs, hg]
  · intro hg
    unfold parseReraId
    by_cases hs : s = ""
    · right; exact hs
    · left; simp [hs, hg]
  · intro h
    unfold parseImages
    by_cases ht : t = ""
    · simp [ht]
    · simp only [ht, if_false]
      cases hm : reMatch0 bracketRe t.data with
      | none => rfl
      | some whole =>
          rw [hm] at h
          simp only [Option.some_bind] at h
          simp [h]

/-- **C10.** A user message containing any of the eight specific-query
keywords makes `extractFilters` return the empty filter object, whatever
the LLM oracle would answer (so neither the LLM result nor the fallback
parser contributes any constraint). -/
theorem specific_query_returns_empty_filters (llm : String → Option Filters)
    (userMessage : String)
    (h : ∃ k ∈ specificKeywords, strContains (lowerStr userMessage) k = true) :
    extractFilters llm userMessage = {} := by
  unfold extractFilters
  have hq : isSpecificQuery userMessage = true := by
    unfold isSpecificQuery
    rcases h with ⟨k, hk, hc⟩
    exact List.any_eq_true.mpr ⟨k, hk, hc⟩
  simp [hq]

/-- **C10 (witness).** `"show me 3BHK in Pune"` contains `"show me"`, so the
gate answers the empty filter object even with an LLM oracle that would
return a city filter. -/
theorem specific_query_check :
    extractFilters (fun _ => some { city := some "pune" }) "show me 3BHK in Pune" = {} :=
  specific_query_returns_empty_filters _ _ ⟨"show me", by decide, by decide⟩

end PropertyBot
